import Mathlib

/-!
Verification of the jsonnet command-line driver (`jsonnet.cpp`): a shallow
embedding of the argument normalizer (`simplify_args`), the option-parsing
loop of `main`, the numeric validators (`strtol_check` and the inline
`strtod` check), the post-loop positional-argument checks, the pipeline
orchestration of `main`'s try block, and the bounded stack-trace renderer
of the RuntimeError handler.

Machine-integer conventions (LP64, as on the Linux platform targeted by
the source): C `long` is a 64-bit signed integer, modelled as `Int`
clamped to `[-2^63, 2^63 - 1]` where `strtol` clamps; C `unsigned` is a
32-bit unsigned integer, modelled as `Nat` with reduction modulo `2^32`
at each conversion from `long`.  C `double` parsing is modelled over
exact rationals (see `strtodModel`).
-/

/-- C `LONG_MAX` on an LP64 platform. -/
def LONG_MAX : Int := 2 ^ 63 - 1

/-- C `LONG_MIN` on an LP64 platform. -/
def LONG_MIN : Int := -(2 ^ 63)

/-- Out-of-range `strtol` results are clamped to `LONG_MAX` / `LONG_MIN`. -/
def clampLong (v : Int) : Int :=
  if v > LONG_MAX then LONG_MAX else if v < LONG_MIN then LONG_MIN else v

/-- Conversion from C `long` to C `unsigned` (32 bits): reduction mod `2^32`. -/
def toUnsigned32 (v : Int) : Nat := (v % (2 ^ 32 : Int)).toNat

/-- C `isspace` in the default locale. -/
def isCWhitespace (c : Char) : Bool :=
  c == ' ' || c == '\t' || c == '\n' || c == '\x0b' || c == '\x0c' || c == '\r'

/-- Numeric value of a decimal digit character. -/
def digitVal (c : Char) : Nat := c.toNat - '0'.toNat

/-- Value of a decimal digit string. -/
def digitsToNat (ds : List Char) : Nat := ds.foldl (fun a c => 10 * a + digitVal c) 0

/-- Optional leading sign: returns (sign, chars consumed, rest). -/
def signSplit (s : List Char) : Int × Nat × List Char :=
  match s with
  | '-' :: r => (-1, 1, r)
  | '+' :: r => (1, 1, r)
  | r => (1, 0, r)

/-- Result of `strtol`: the parsed value and the number of characters of the
longest parsable prefix (`consumed = 0` when no conversion is performed, in
which case `strtol` leaves `endptr` at the start of the string). -/
structure StrtolResult where
  value : Int
  consumed : Nat
deriving DecidableEq

/-- Model of C `std::strtol(arg, &ep, 10)`: skip C whitespace, optional
sign, then the longest run of decimal digits; the result is clamped to the
`long` range.  `consumed` is the offset of `ep` from the start. -/
def strtolModel (s : List Char) : StrtolResult :=
  let ws := (s.takeWhile isCWhitespace).length
  let s1 := s.drop ws
  let (sign, slen, s2) := signSplit s1
  let ds := s2.takeWhile Char.isDigit
  if ds.isEmpty then ⟨0, 0⟩
  else ⟨clampLong (sign * (digitsToNat ds : Int)), ws + slen + ds.length⟩

/-- Function `strtol_check` from the source: parse with `strtol` and reject
(usage to stderr, `exit(EXIT_FAILURE)`, modelled as `.error ()`) exactly
when characters remain after the parsed prefix (`*ep != '\0'`) or the
string is empty (`*arg == '\0'`). -/
def strtol_check (str : String) : Except Unit Int :=
  let r := strtolModel str.data
  if r.consumed ≠ str.data.length ∨ str.data = [] then .error () else .ok r.value

/-- Result of `strtod`: exact value and number of characters consumed. -/
structure StrtodResult where
  value : ℚ
  consumed : Nat
deriving DecidableEq

/-- The exact rational value `sign · (intDs.fracDs) · 10^e` of a decimal
mantissa (integer digits, fraction digits) with decimal exponent `e`,
as a single integer quotient. -/
def strtodVal (sign : Int) (intDs fracDs : List Char) (e : Int) : ℚ :=
  let num := sign * ((digitsToNat intDs : Int) * (10 : Int) ^ fracDs.length +
    (digitsToNat fracDs : Int))
  let den := (10 : Int) ^ fracDs.length
  if 0 ≤ e then Rat.divInt (num * (10 : Int) ^ e.toNat) den
  else Rat.divInt num (den * (10 : Int) ^ (-e).toNat)

/-- Model of C `std::strtod(arg, &ep)` restricted to decimal forms
(hexadecimal floats, infinities and NaNs are not modelled), with the value
computed exactly over ℚ instead of rounded to `double`: skip C whitespace,
optional sign, a digit sequence optionally containing one radix point
(at least one digit required), then an optional exponent part `e|E`,
optional sign, nonempty digit sequence (otherwise the exponent part is not
consumed).  `consumed = 0` when no conversion is performed. -/
def strtodModel (s : List Char) : StrtodResult :=
  let ws := (s.takeWhile isCWhitespace).length
  let s1 := s.drop ws
  let (sign, slen, s2) := signSplit s1
  let intDs := s2.takeWhile Char.isDigit
  let s3 := s2.drop intDs.length
  let (fracDs, dotLen, s4) :=
    match s3 with
    | '.' :: r => (r.takeWhile Char.isDigit, 1, r.drop (r.takeWhile Char.isDigit).length)
    | _ => ([], 0, s3)
  if intDs.isEmpty && fracDs.isEmpty then ⟨0, 0⟩
  else
    let mantLen := ws + slen + intDs.length + dotLen + fracDs.length
    match s4 with
    | c :: r =>
      if c == 'e' || c == 'E' then
        let (esign, eslen, s5) := signSplit r
        let eDs := s5.takeWhile Char.isDigit
        if eDs.isEmpty then ⟨strtodVal sign intDs fracDs 0, mantLen⟩
        else ⟨strtodVal sign intDs fracDs (esign * (digitsToNat eDs : Int)),
          mantLen + 1 + eslen + eDs.length⟩
      else ⟨strtodVal sign intDs fracDs 0, mantLen⟩
    | [] => ⟨strtodVal sign intDs fracDs 0, mantLen⟩

/-- The `--gc-growth-trigger` well-formedness check of `main`: reject the
token exactly when characters remain after the `strtod`-parsed prefix or
the token is empty (the same `*ep != '\0' || *arg == '\0'` test as
`strtol_check`); otherwise yield the parsed value. -/
def strtodCheck (str : String) : Except Unit ℚ :=
  let r := strtodModel str.data
  if r.consumed ≠ str.data.length ∨ str.data = [] then .error () else .ok r.value

/-- The cluster test of `simplify_args`:
`arg.length() > 2 && arg[0] == '-' && arg[1] != '-'`. -/
def isClusterArg (arg : String) : Bool :=
  match arg.data with
  | c0 :: c1 :: _ :: _ => c0 == '-' && c1 != '-'
  | _ => false

/-- The cluster expansion of `simplify_args`: one `"-" + arg.substr(j, 1)`
token for each `j` from 1 to `arg.length() - 1`. -/
def expandCluster (arg : String) : List String :=
  (arg.data.drop 1).map (fun c => String.mk ['-', c])

/-- Function `simplify_args` from the source (applied to `argv[1..]`): a `--` token
is pushed together with all remaining arguments unsimplified and the loop
breaks; a token of the form `-abc` is expanded to `-a -b -c`; every other
token is pushed unchanged. -/
def simplify_args : List String → List String
  | [] => []
  | arg :: rest =>
    if arg = "--" then arg :: rest
    else if isClusterArg arg then expandCluster arg ++ simplify_args rest
    else arg :: simplify_args rest

/-- The mutable locals of `main`'s option loop, plus the collected
`remaining_args`. -/
structure LoopState where
  gc_growth_trigger : ℚ
  max_stack : Nat
  gc_min_objects : Nat
  filename_is_code : Bool
  debug_ast : Bool
  remaining : List String
deriving DecidableEq

/-- The initial values of `main`'s locals. -/
def initState : LoopState :=
  { gc_growth_trigger := 2
    max_stack := 500
    gc_min_objects := 1000
    filename_is_code := false
    debug_ast := false
    remaining := [] }

/-- The fatal usage diagnostics emitted by the option parser. -/
inductive CliError where
  | missingArg
  | invalidInteger (s : String)
  | invalidMaxStack (v : Int)
  | invalidGcMinObjects (v : Int)
  | invalidNumber (s : String)
  | invalidGcGrowthTrigger (s : String)
  | filenameAlreadySpecified (f : String)
  | mustGiveFilename
deriving DecidableEq

/-- First line of the diagnostic printed to stderr for each usage error. -/
def errMessage : CliError → String
  | .missingArg => "Expected another commandline argument."
  | .invalidInteger s => "ERROR: Invalid integer \"" ++ s ++ "\""
  | .invalidMaxStack v => "ERROR: Invalid --max-stack value " ++ toString v
  | .invalidGcMinObjects v => "ERROR: Invalid --gc-min-objects value " ++ toString v
  | .invalidNumber s => "ERROR: Invalid number \"" ++ s ++ "\""
  | .invalidGcGrowthTrigger s => "ERROR: Invalid --gc-growth-trigger \"" ++ s ++ "\""
  | .filenameAlreadySpecified f => "ERROR: Filename already specified as \"" ++ f ++ "\""
  | .mustGiveFilename => "ERROR: Must give filename when using -e, --exec"

/-- Outcome of the option loop: `-h` exits successfully, a usage error
exits with failure, otherwise the loop finishes with its final state. -/
inductive LoopResult where
  | helpExit
  | errorExit (e : CliError)
  | done (st : LoopState)
deriving DecidableEq

/-- The option loop of `main` (lines 104-151), one token at a time.
A missing value token is `next_arg`'s fatal
"Expected another commandline argument." error.  Note the
`--gc-min-objects` branch: the C source reads
`long l = gc_min_objects = strtol_check(next_arg(i, args));`
where `gc_min_objects` is `unsigned`, so the parsed `long` is narrowed
modulo `2^32` *before* the `l < 1` validation, and `l` holds the narrowed
(hence non-negative) value. -/
def parseLoop : LoopState → List String → LoopResult
  | st, [] => .done st
  | st, arg :: rest =>
    if arg = "-h" ∨ arg = "--help" then .helpExit
    else if arg = "-s" ∨ arg = "--max-stack" then
      match rest with
      | [] => .errorExit .missingArg
      | v :: rest' =>
        match strtol_check v with
        | .error _ => .errorExit (.invalidInteger v)
        | .ok l =>
          if l < 1 then .errorExit (.invalidMaxStack l)
          else parseLoop { st with max_stack := toUnsigned32 l } rest'
    else if arg = "--gc-min-objects" then
      match rest with
      | [] => .errorExit .missingArg
      | v :: rest' =>
        match strtol_check v with
        | .error _ => .errorExit (.invalidInteger v)
        | .ok l0 =>
          let l : Int := (toUnsigned32 l0 : Int)
          if l < 1 then .errorExit (.invalidGcMinObjects l)
          else parseLoop { st with gc_min_objects := toUnsigned32 l } rest'
    else if arg = "--gc-growth-trigger" then
      match rest with
      | [] => .errorExit .missingArg
      | v :: rest' =>
        match strtodCheck v with
        | .error _ => .errorExit (.invalidNumber v)
        | .ok q =>
          if q < 0 then .errorExit (.invalidGcGrowthTrigger v)
          else parseLoop { st with gc_growth_trigger := q } rest'
    else if arg = "-e" ∨ arg = "--exec" then
      parseLoop { st with filename_is_code := true } rest
    else if arg = "--debug-ast" then
      parseLoop { st with debug_ast := true } rest
    else if arg = "--" then
      .done { st with remaining := st.remaining ++ rest }
    else
      parseLoop { st with remaining := st.remaining ++ [arg] } rest

/-- The validated configuration threaded into the pipeline. -/
structure Config where
  filename : String
  gc_growth_trigger : ℚ
  max_stack : Nat
  gc_min_objects : Nat
  filename_is_code : Bool
  debug_ast : Bool
deriving DecidableEq

/-- Outcome of command-line processing as a whole. -/
inductive ParseOutcome where
  | helpExit
  | errorExit (e : CliError)
  | proceed (cfg : Config)
deriving DecidableEq

/-- The post-loop checks of `main` (lines 153-167): set `filename` from the
first positional argument if any, reject two or more positional arguments,
and reject `-e` with none. -/
def finalize (st : LoopState) : ParseOutcome :=
  if st.remaining.length > 1 then
    .errorExit (.filenameAlreadySpecified (st.remaining.headD "-"))
  else if st.filename_is_code ∧ st.remaining.length = 0 then .errorExit .mustGiveFilename
  else .proceed
    { filename := st.remaining.headD "-"
      gc_growth_trigger := st.gc_growth_trigger
      max_stack := st.max_stack
      gc_min_objects := st.gc_min_objects
      filename_is_code := st.filename_is_code
      debug_ast := st.debug_ast }

/-- Full command-line processing: normalization, the option loop, then the
post-loop checks.  The argument is `argv[1..]`. -/
def parseCommandLine (rawArgs : List String) : ParseOutcome :=
  match parseLoop initState (simplify_args rawArgs) with
  | .helpExit => .helpExit
  | .errorExit e => .errorExit e
  | .done st => finalize st

/-- A stack-trace frame of a `RuntimeError`. -/
structure Frame where
  location : String
  name : String
deriving DecidableEq

/-- Constant `max_above = 10` (a `const long`) of the RuntimeError handler. -/
def max_above : Int := 10

/-- Constant `max_below = 10` (a `const long`) of the RuntimeError handler. -/
def max_below : Int := 10

/-- The line printed for a shown frame: `"\t" << location << "\t" << name`. -/
def traceLine (f : Frame) : String := "\t" ++ f.location ++ "\t" ++ f.name

/-- The ellipsis marker line `"\t..."`. -/
def ellipsisLine : String := "\t..."

/-- The bounded stack-trace rendering loop of the RuntimeError handler
(lines 210-221): for `i` from 0 to `sz - 1`, a frame with
`i >= max_above && i < sz - max_below` is suppressed (emitting the single
ellipsis line when `i == max_above`), every other frame is printed. -/
def renderTrace (trace : List Frame) : List String :=
  (List.range trace.length).flatMap fun i =>
    if (i : Int) ≥ max_above ∧ (i : Int) < (trace.length : Int) - max_below then
      if (i : Int) = max_above then [ellipsisLine] else []
    else [traceLine (trace.getD i ⟨"", ""⟩)]

/-- A static (lex/parse/analysis) error message. -/
abbrev StaticError := String

/-- A VM execution failure: message and stack trace. -/
structure RuntimeError where
  msg : String
  stackTrace : List Frame
deriving DecidableEq

/-- The collaborator stages `main`'s try block can invoke. -/
inductive Stage where
  | parseStage
  | unparseStage
  | analyzeStage
  | executeStage
deriving DecidableEq

/-- Observable outcome of the pipeline: which collaborators were invoked,
what was printed on each stream, and the exit status. -/
structure RunResult where
  invoked : List Stage
  stdout : List String
  stderr : List String
  exitSuccess : Bool
deriving DecidableEq

/-- The `STATIC ERROR:` line. -/
def staticErrorLine (e : StaticError) : String := "STATIC ERROR: " ++ e

/-- The `RUNTIME ERROR:` line followed by the bounded trace rendering. -/
def runtimeErrorLines (e : RuntimeError) : List String :=
  ("RUNTIME ERROR: " ++ e.msg) :: renderTrace e.stackTrace

/-- The try block of `main` (lines 192-225) over abstract collaborators:
parse; if `debug_ast`, unparse and print; otherwise static analysis then
VM execution with the three resource limits; `StaticError` and
`RuntimeError` are caught and rendered, everything maps to the process
exit status. -/
def runPipeline (AST : Type) (cfg : Config)
    (parseResult : Except StaticError AST)
    (unparseFn : AST → String)
    (analyzeFn : AST → Except StaticError Unit)
    (executeFn : AST → Nat → Nat → ℚ → Except RuntimeError String) : RunResult :=
  match parseResult with
  | .error e =>
    { invoked := [.parseStage], stdout := [], stderr := [staticErrorLine e], exitSuccess := false }
  | .ok ast =>
    if cfg.debug_ast then
      { invoked := [.parseStage, .unparseStage]
        stdout := [unparseFn ast ++ "\n"]
        stderr := []
        exitSuccess := true }
    else
      match analyzeFn ast with
      | .error e =>
        { invoked := [.parseStage, .analyzeStage]
          stdout := []
          stderr := [staticErrorLine e]
          exitSuccess := false }
      | .ok _ =>
        match executeFn ast cfg.max_stack cfg.gc_min_objects cfg.gc_growth_trigger with
        | .error e =>
          { invoked := [.parseStage, .analyzeStage, .executeStage]
            stdout := []
            stderr := runtimeErrorLines e
            exitSuccess := false }
        | .ok out =>
          { invoked := [.parseStage, .analyzeStage, .executeStage]
            stdout := [out ++ "\n"]
            stderr := []
            exitSuccess := true }

/-- Modelled from the spec: the per-token normalization rule of §4.1 /
claim C5, stated tokenwise — a token of length > 2 beginning with a single
dash whose second character is not a dash is replaced by one single-dash
token per character after the dash; every other token passes through
unchanged.  (Used to compare the spec's tokenwise description with the
source's `simplify_args`.) -/
def expandTokSpec (t : String) : List String :=
  if 2 < t.data.length ∧ t.data[0]? = some '-' ∧ t.data[1]? ≠ some '-' then
    (t.data.drop 1).map (fun c => String.mk ['-', c])
  else [t]

/-! ## Helper lemmas -/

theorem flatMap_eq_map_of {α β : Type} (l : List α) (f : α → List β) (g : α → β)
    (h : ∀ a ∈ l, f a = [g a]) : l.flatMap f = l.map g := by
  induction l with
  | nil => rfl
  | cons a l ih =>
    rw [List.flatMap_cons, h a (List.mem_cons_self a l),
      ih (fun b hb => h b (List.mem_cons_of_mem a hb)), List.map_cons]
    rfl

theorem flatMap_eq_nil_of {α β : Type} (l : List α) (f : α → List β)
    (h : ∀ a ∈ l, f a = []) : l.flatMap f = [] := by
  induction l with
  | nil => rfl
  | cons a l ih =>
    rw [List.flatMap_cons, h a (List.mem_cons_self a l),
      ih (fun b hb => h b (List.mem_cons_of_mem a hb))]
    rfl

theorem flatMap_congr_mem {α β : Type} (l : List α) (f g : α → List β)
    (h : ∀ a ∈ l, f a = g a) : l.flatMap f = l.flatMap g := by
  induction l with
  | nil => rfl
  | cons a l ih =>
    rw [List.flatMap_cons, List.flatMap_cons, h a (List.mem_cons_self a l),
      ih (fun b hb => h b (List.mem_cons_of_mem a hb))]

theorem range_flatMap_if_zero {β : Type} (n : Nat) (hn : 1 ≤ n) (x : β) :
    (List.range n).flatMap (fun j => if j = 0 then [x] else []) = [x] := by
  obtain ⟨m, rfl⟩ : ∃ m, n = m + 1 := ⟨n - 1, by omega⟩
  rw [List.range_succ_eq_map, List.flatMap_cons, List.flatMap_map]
  rw [flatMap_eq_nil_of _ _ (fun a _ => by simp)]
  simp

theorem range_map_getD_take {α β : Type} (l : List α) (d : α) (f : α → β) (m : Nat)
    (hm : m ≤ l.length) :
    (List.range m).map (fun i => f (l.getD i d)) = (l.take m).map f := by
  apply List.ext_getElem
  · simp only [List.length_map, List.length_range, List.length_take]
    omega
  · intro n h1 h2
    simp only [List.length_map, List.length_range] at h1
    simp only [List.getElem_map, List.getElem_range]
    rw [List.getD_eq_getElem l d (by omega), List.getElem_take]

theorem range_map_getD_drop {α β : Type} (l : List α) (d : α) (f : α → β) (m : Nat) :
    (List.range (l.length - m)).map (fun j => f (l.getD (m + j) d)) = (l.drop m).map f := by
  apply List.ext_getElem
  · simp only [List.length_map, List.length_range, List.length_drop]
  · intro n h1 h2
    simp only [List.length_map, List.length_range] at h1
    simp only [List.getElem_map, List.getElem_range]
    rw [List.getD_eq_getElem l d (by omega), List.getElem_drop]

/-! ## Claim theorems -/

/-- Claim C2: the bounded stack-trace renderer, with `max_above = 10` and
`max_below = 10`, prints every frame when the trace has at most
`max_above + max_below = 20` frames, and otherwise prints the first 10
frames, a single ellipsis line in place of the suppressed middle, and the
last 10 frames; consequently a trace of more than 20 frames always renders
exactly 21 lines (so a 25-frame trace gives frames 0-9, one ellipsis, then
frames 15-24), and a trace of at most 20 frames renders one line per
frame. -/
theorem renderTrace_bounded_windows (trace : List Frame) :
    renderTrace trace =
      (if trace.length ≤ 20 then trace.map traceLine
       else (trace.take 10).map traceLine ++
         ellipsisLine :: (trace.drop (trace.length - 10)).map traceLine) ∧
    (renderTrace trace).length = (if trace.length ≤ 20 then trace.length else 21) := by
  have key : renderTrace trace =
      (if trace.length ≤ 20 then trace.map traceLine
       else (trace.take 10).map traceLine ++
         ellipsisLine :: (trace.drop (trace.length - 10)).map traceLine) := by
    unfold renderTrace
    by_cases hsz : trace.length ≤ 20
    · rw [if_pos hsz]
      rw [flatMap_eq_map_of _ _ (fun i => traceLine (trace.getD i ⟨"", ""⟩)) ?_]
      · rw [range_map_getD_take trace ⟨"", ""⟩ traceLine trace.length le_rfl, List.take_length]
      · intro i hi
        rw [List.mem_range] at hi
        rw [if_neg]
        simp only [max_above, max_below]
        omega
    · rw [if_neg hsz]
      push_neg at hsz
      obtain ⟨k, hk, hlen⟩ : ∃ k, 1 ≤ k ∧ trace.length = 10 + (k + 10) :=
        ⟨trace.length - 20, by omega, by omega⟩
      rw [hlen, List.range_add, List.flatMap_append, List.range_add, List.map_append,
        List.flatMap_append, List.flatMap_map, List.flatMap_map, List.flatMap_map]
      have chunkA :
          (List.range 10).flatMap (fun i =>
            if (i : Int) ≥ max_above ∧ (i : Int) < ((10 + (k + 10) : Nat) : Int) - max_below then
              if (i : Int) = max_above then [ellipsisLine] else []
            else [traceLine (trace.getD i ⟨"", ""⟩)]) = (trace.take 10).map traceLine := by
        rw [flatMap_eq_map_of _ _ (fun i => traceLine (trace.getD i ⟨"", ""⟩)) ?_]
        · exact range_map_getD_take trace ⟨"", ""⟩ traceLine 10 (by omega)
        · intro i hi
          rw [List.mem_range] at hi
          rw [if_neg]
          simp only [max_above, max_below]
          omega
      have chunkB :
          (List.range k).flatMap (fun a =>
            if ((10 + a : Nat) : Int) ≥ max_above ∧
                ((10 + a : Nat) : Int) < ((10 + (k + 10) : Nat) : Int) - max_below then
              if ((10 + a : Nat) : Int) = max_above then [ellipsisLine] else []
            else [traceLine (trace.getD (10 + a) ⟨"", ""⟩)]) = [ellipsisLine] := by
        rw [flatMap_congr_mem _ _ (fun j => if j = 0 then [ellipsisLine] else []) ?_]
        · exact range_flatMap_if_zero k hk ellipsisLine
        · intro j hj
          rw [List.mem_range] at hj
          show _ = (if j = 0 then [ellipsisLine] else [])
          rw [if_pos (by simp only [max_above, max_below]; omega)]
          by_cases h0 : j = 0
          · subst h0
            rw [if_pos (by simp only [max_above]; omega), if_pos rfl]
          · rw [if_neg (by simp only [max_above]; omega), if_neg h0]
      have chunkC :
          (List.range 10).flatMap (fun a =>
            if ((10 + (k + a) : Nat) : Int) ≥ max_above ∧
                ((10 + (k + a) : Nat) : Int) < ((10 + (k + 10) : Nat) : Int) - max_below then
              if ((10 + (k + a) : Nat) : Int) = max_above then [ellipsisLine] else []
            else [traceLine (trace.getD (10 + (k + a)) ⟨"", ""⟩)]) =
            (trace.drop (10 + (k + 10) - 10)).map traceLine := by
        rw [flatMap_eq_map_of _ _ (fun a => traceLine (trace.getD (10 + (k + a)) ⟨"", ""⟩)) ?_]
        · have hidx : ∀ a : Nat, 10 + (k + a) = (k + 10) + a := fun a => by omega
          simp only [hidx]
          have hC := range_map_getD_drop trace ⟨"", ""⟩ traceLine (k + 10)
          rw [hlen] at hC
          rw [show 10 + (k + 10) - (k + 10) = 10 from by omega] at hC
          rw [hC, show k + 10 + 10 - 10 = k + 10 from by omega]
        · intro a ha
          rw [List.mem_range] at ha
          rw [if_neg]
          simp only [max_above, max_below]
          omega
      rw [chunkA, chunkB, chunkC]
      simp
  refine ⟨key, ?_⟩
  rw [key]
  by_cases hsz : trace.length ≤ 20
  · rw [if_pos hsz, if_pos hsz, List.length_map]
  · rw [if_neg hsz, if_neg hsz]
    simp only [List.length_append, List.length_cons, List.length_map, List.length_take,
      List.length_drop]
    omega

theorem expandTokSpec_eq (t : String) :
    expandTokSpec t = if isClusterArg t then expandCluster t else [t] := by
  obtain ⟨data⟩ := t
  rcases data with _ | ⟨c0, _ | ⟨c1, _ | ⟨c2, tl⟩⟩⟩
  · rfl
  · rfl
  · rfl
  · by_cases h0 : c0 = '-' <;> by_cases h1 : c1 = '-' <;>
      simp [expandTokSpec, isClusterArg, expandCluster, h0, h1, List.length_cons]

/-- Claim C1 (code bug in the source): the line
`long l = gc_min_objects = strtol_check(next_arg(i, args));` narrows the
parsed `long` through the `unsigned` field *before* the `l < 1`
validation, so the validation contract is not the positive-integer
contract of `--max-stack`: `--gc-min-objects -1` passes validation, sets
the field to `2^32 - 1 = 4294967295`, and control proceeds to the
pipeline instead of exiting with a usage error. -/
theorem gcMinObjects_negative_accepted :
    parseCommandLine ["--gc-min-objects", "-1"] =
      .proceed { filename := "-", gc_growth_trigger := 2, max_stack := 500,
                 gc_min_objects := 4294967295, filename_is_code := false,
                 debug_ast := false } ∧
    decide (parseCommandLine ["--gc-min-objects", "-1"] =
      .errorExit (.invalidGcMinObjects (-1))) = false := by
  constructor <;> decide

/-- Claim C3 counterexample: `--max-stack 4294967296` (= 2^32) is a
well-formed integer with parsed value at least 1, yet the value stored as
max-stack is 0 (narrowed to `unsigned`), not the parsed value — so the
parsed value is not "stored and threaded unchanged" as claimed. -/
theorem maxStack_truncation_counterexample :
    parseCommandLine ["--max-stack", "4294967296"] =
      .proceed { filename := "-", gc_growth_trigger := 2, max_stack := 0,
                 gc_min_objects := 1000, filename_is_code := false,
                 debug_ast := false } ∧
    decide (parseCommandLine ["--max-stack", "4294967296"] =
      .proceed { filename := "-", gc_growth_trigger := 2, max_stack := 4294967296,
                 gc_min_objects := 1000, filename_is_code := false,
                 debug_ast := false }) = false := by
  constructor <;> decide

/-- Claim C3 (amended): for every token `t` following `-s` / `--max-stack`:
a malformed token (empty or with trailing non-numeric characters) is
rejected with the invalid-integer usage error, a parsed value below 1 is
rejected with the invalid-max-stack usage error — both exit with failure
before any pipeline stage — and otherwise the parsed value, narrowed to
32-bit `unsigned` (hence unchanged exactly when below `2^32`), is stored
as max-stack and threaded into VM execution.  In particular
`--max-stack 0`, `--max-stack -1` and `--max-stack abc` fail and
`--max-stack 5` succeeds with max-stack = 5. -/
theorem maxStack_contract :
    (∀ (st : LoopState) (flag t : String) (rest : List String),
      flag = "-s" ∨ flag = "--max-stack" →
      parseLoop st (flag :: t :: rest) =
        match strtol_check t with
        | .error _ => .errorExit (.invalidInteger t)
        | .ok l =>
          if l < 1 then .errorExit (.invalidMaxStack l)
          else parseLoop { st with max_stack := toUnsigned32 l } rest) ∧
    parseLoop initState ["--max-stack", "0"] = .errorExit (.invalidMaxStack 0) ∧
    parseLoop initState ["--max-stack", "-1"] = .errorExit (.invalidMaxStack (-1)) ∧
    parseLoop initState ["--max-stack", "abc"] = .errorExit (.invalidInteger "abc") ∧
    parseLoop initState ["-s", "5"] = .done { initState with max_stack := 5 } := by
  refine ⟨?_, by decide, by decide, by decide, by decide⟩
  intro st flag t rest hflag
  rcases hflag with h | h <;> subst h <;> rfl

/-- Claim C3 witness: the general contract applied at `--max-stack 7`. -/
theorem maxStack_contract_witness :
    parseLoop initState ["--max-stack", "7"] = .done { initState with max_stack := 7 } :=
  (maxStack_contract.1 initState "--max-stack" "7" [] (Or.inr rfl)).trans (by decide)

/-- Claim C4: everything at or after the first `--` is preserved verbatim:
the normalizer passes `--` and all subsequent raw arguments through with
no cluster expansion, and whenever the option parser meets `--` every
subsequent token is appended to the positional arguments verbatim and
option processing stops. -/
theorem terminator_preserved :
    (∀ (pre suf : List String), "--" ∉ pre →
      simplify_args (pre ++ "--" :: suf) = simplify_args pre ++ "--" :: suf) ∧
    (∀ (st : LoopState) (rest : List String),
      parseLoop st ("--" :: rest) = .done { st with remaining := st.remaining ++ rest }) := by
  constructor
  · intro pre suf hpre
    induction pre with
    | nil => rfl
    | cons a pre ih =>
      rw [List.mem_cons, not_or] at hpre
      obtain ⟨ha, hpre⟩ := hpre
      have ha' : ¬a = "--" := fun h => ha h.symm
      rw [List.cons_append, simplify_args, simplify_args, if_neg ha', if_neg ha']
      by_cases hc : isClusterArg a
      · rw [if_pos hc, if_pos hc, ih hpre, List.append_assoc]
      · rw [if_neg hc, if_neg hc, ih hpre]
        rfl
  · intro st rest
    rw [parseLoop.eq_def]
    simp

/-- Claim C4 witness: the terminator theorem at a concrete input. -/
theorem terminator_preserved_witness :
    simplify_args (["-ab"] ++ "--" :: ["-cd"]) = simplify_args ["-ab"] ++ "--" :: ["-cd"] ∧
    parseLoop initState ("--" :: ["x"]) = .done { initState with remaining := ["x"] } :=
  ⟨terminator_preserved.1 ["-ab"] ["-cd"] (by decide),
   (terminator_preserved.2 initState ["x"]).trans (by decide)⟩

/-- Claim C5 counterexample: the tokenwise expansion rule is not
unconditional — after a `--` terminator a cluster-shaped token such as
`-abc` is *not* expanded, contradicting the claim's "every token of
length > 2 whose first character is '-' and second character is not '-'
is replaced". -/
theorem cluster_after_terminator_counterexample :
    simplify_args ["--", "-abc"] = ["--", "-abc"] ∧
    decide (simplify_args ["--", "-abc"] = ["--", "-a", "-b", "-c"]) = false := by
  constructor <;> decide

/-- Claim C5 (amended): on any argument list that contains no `--`
terminator (equivalently, on the segment before the first `--`, the part
the expansion rule governs), the normalizer is exactly the tokenwise map:
every token of length > 2 whose first character is `-` and second
character is not `-` is replaced by one `-c` token per character after
the dash, in order, and every other token — long options, two-character
short options, a bare `-`, plain values — passes through unchanged.
Tokens at or after a `--` terminator instead pass through unchanged. -/
theorem simplify_args_tokenwise (args : List String) (h : "--" ∉ args) :
    simplify_args args = args.flatMap expandTokSpec := by
  induction args with
  | nil => rfl
  | cons a rest ih =>
    rw [List.mem_cons, not_or] at h
    obtain ⟨ha, hrest⟩ := h
    have ha' : ¬a = "--" := fun hh => ha hh.symm
    rw [List.flatMap_cons, ← ih hrest, expandTokSpec_eq, simplify_args, if_neg ha']
    by_cases hc : isClusterArg a
    · rw [if_pos hc, if_pos hc]
    · rw [if_neg hc, if_neg hc]
      rfl

/-- Claim C5 witness: the tokenwise rule evaluated on a concrete list. -/
theorem simplify_args_tokenwise_witness :
    simplify_args ["-abc", "-", "x", "--help"] = ["-a", "-b", "-c", "-", "x", "--help"] :=
  (simplify_args_tokenwise ["-abc", "-", "x", "--help"] (by decide)).trans (by decide)

/-- Claim C6: after the option loop, two or more positional arguments are
a fatal "filename already specified" usage error (for any loop state, so
regardless of option order); `filename-is-code` with zero positional
arguments is a fatal usage error; with zero positional arguments (and no
`filename-is-code`) the filename defaults to the stdin sentinel `-`; and
control reaches the pipeline only with at most one positional
argument. -/
theorem positional_argument_contract (st : LoopState) :
    (st.remaining.length ≥ 2 →
      finalize st = .errorExit (.filenameAlreadySpecified (st.remaining.headD "-"))) ∧
    (st.filename_is_code = true ∧ st.remaining.length = 0 →
      finalize st = .errorExit .mustGiveFilename) ∧
    (st.filename_is_code = false ∧ st.remaining.length = 0 →
      finalize st = .proceed
        { filename := "-", gc_growth_trigger := st.gc_growth_trigger,
          max_stack := st.max_stack, gc_min_objects := st.gc_min_objects,
          filename_is_code := false, debug_ast := st.debug_ast }) ∧
    (∀ cfg : Config, finalize st = .proceed cfg → st.remaining.length ≤ 1) := by
  refine ⟨?_, ?_, ?_, ?_⟩
  · intro h2
    unfold finalize
    rw [if_pos (by omega)]
  · rintro ⟨hcode, h0⟩
    unfold finalize
    rw [if_neg (by omega), if_pos ⟨hcode, h0⟩]
  · rintro ⟨hcode, h0⟩
    have hnil : st.remaining = [] := List.length_eq_zero.mp h0
    unfold finalize
    rw [if_neg (by omega), if_neg (by simp [hcode]), hnil, hcode]
    rfl
  · intro cfg hcfg
    by_contra hlen
    push_neg at hlen
    unfold finalize at hcfg
    rw [if_pos (by omega)] at hcfg
    exact ParseOutcome.noConfusion hcfg

/-- Claim C6 witness: the contract applied at concrete states. -/
theorem positional_argument_contract_witness :
    finalize { initState with remaining := ["a.jsonnet", "b.jsonnet"] } =
      .errorExit (.filenameAlreadySpecified "a.jsonnet") ∧
    finalize { initState with filename_is_code := true } =
      .errorExit .mustGiveFilename :=
  ⟨((positional_argument_contract _).1 (by decide)).trans (by decide),
   ((positional_argument_contract _).2.1 (by decide)).trans (by decide)⟩

/-- Claim C7: for every token following `--gc-growth-trigger`, a token
that is not a well-formed number (empty, or with characters after the
parsed prefix) is rejected with the invalid-number usage error, a
well-formed token with negative value is rejected with the
invalid-gc-growth-trigger usage error — both exit with failure status —
and otherwise the parsed non-negative value is stored as
gc-growth-trigger; in particular `-0.5` fails and `2.5` succeeds. -/
theorem gcGrowthTrigger_contract :
    (∀ (st : LoopState) (t : String) (rest : List String),
      parseLoop st ("--gc-growth-trigger" :: t :: rest) =
        match strtodCheck t with
        | .error _ => .errorExit (.invalidNumber t)
        | .ok q =>
          if q < 0 then .errorExit (.invalidGcGrowthTrigger t)
          else parseLoop { st with gc_growth_trigger := q } rest) ∧
    parseLoop initState ["--gc-growth-trigger", "-0.5"] =
      .errorExit (.invalidGcGrowthTrigger "-0.5") ∧
    parseLoop initState ["--gc-growth-trigger", "2.5"] =
      .done { initState with gc_growth_trigger := Rat.divInt 5 2 } := by
  refine ⟨?_, by decide, by decide⟩
  intro st t rest
  rfl

/-- Claim C8: when the debug-ast flag is set and parsing succeeds, the
pipeline prints the unparsed AST followed by a newline to stdout and
exits with success status, and neither the static-analysis collaborator
nor the VM-execution collaborator is ever invoked. -/
theorem debugAst_skips_analysis_and_vm (AST : Type) (cfg : Config) (ast : AST)
    (unparseFn : AST → String) (analyzeFn : AST → Except StaticError Unit)
    (executeFn : AST → Nat → Nat → ℚ → Except RuntimeError String)
    (h : cfg.debug_ast = true) :
    runPipeline AST cfg (.ok ast) unparseFn analyzeFn executeFn =
      { invoked := [.parseStage, .unparseStage], stdout := [unparseFn ast ++ "\n"],
        stderr := [], exitSuccess := true } ∧
    Stage.analyzeStage ∉ (runPipeline AST cfg (.ok ast) unparseFn analyzeFn executeFn).invoked ∧
    Stage.executeStage ∉ (runPipeline AST cfg (.ok ast) unparseFn analyzeFn executeFn).invoked := by
  have key : runPipeline AST cfg (.ok ast) unparseFn analyzeFn executeFn =
      { invoked := [.parseStage, .unparseStage], stdout := [unparseFn ast ++ "\n"],
        stderr := [], exitSuccess := true } := by
    unfold runPipeline
    simp [h]
  refine ⟨key, ?_, ?_⟩ <;> rw [key] <;> simp

/-- Claim C8 witness: the debug-ast theorem at a concrete configuration
and concrete collaborators. -/
theorem debugAst_skips_analysis_and_vm_witness :
    runPipeline Unit
      { filename := "<stdin>", gc_growth_trigger := 2, max_stack := 500,
        gc_min_objects := 1000, filename_is_code := false, debug_ast := true }
      (.ok ()) (fun _ => "null") (fun _ => .ok ()) (fun _ _ _ _ => .ok "null") =
      { invoked := [.parseStage, .unparseStage], stdout := ["null\n"],
        stderr := [], exitSuccess := true } :=
  (debugAst_skips_analysis_and_vm Unit
    { filename := "<stdin>", gc_growth_trigger := 2, max_stack := 500,
      gc_min_objects := 1000, filename_is_code := false, debug_ast := true }
    () (fun _ => "null") (fun _ => .ok ()) (fun _ _ _ _ => .ok "null") rfl).1

/-- Claim C9 counterexample: a token stream whose last token is the
value-consuming flag `-s` but which reaches the pipeline instead of
failing — after a `--` terminator the trailing `-s` is a positional
argument (the filename), so the process does not print the missing-value
error. -/
theorem trailing_flag_after_terminator_counterexample :
    parseCommandLine ["--", "-s"] =
      .proceed { filename := "-s", gc_growth_trigger := 2, max_stack := 500,
                 gc_min_objects := 1000, filename_is_code := false,
                 debug_ast := false } ∧
    decide (parseCommandLine ["--", "-s"] = .errorExit .missingArg) = false := by
  constructor <;> decide

/-- Claim C9 (amended): whenever the option loop reaches one of the
value-consuming flags `-s`, `--max-stack`, `--gc-min-objects`,
`--gc-growth-trigger` as its final remaining token — i.e. no earlier help
exit, usage error, or `--` terminator intervened — it fails with the
missing-argument error, whose diagnostic is exactly
"Expected another commandline argument.", terminating with failure status
before any pipeline stage. -/
theorem missing_option_value_fatal :
    (∀ (st : LoopState) (flag : String),
      flag ∈ ["-s", "--max-stack", "--gc-min-objects", "--gc-growth-trigger"] →
      parseLoop st [flag] = .errorExit .missingArg) ∧
    errMessage .missingArg = "Expected another commandline argument." := by
  refine ⟨?_, rfl⟩
  intro st flag hflag
  simp only [List.mem_cons, List.not_mem_nil, or_false] at hflag
  rcases hflag with h | h | h | h <;> subst h <;> rfl

/-- Claim C9 witness: the missing-value error at a concrete flag. -/
theorem missing_option_value_fatal_witness :
    parseLoop initState ["--gc-min-objects"] = .errorExit .missingArg :=
  missing_option_value_fatal.1 initState "--gc-min-objects" (by decide)

theorem clampLong_in_range (v : Int) :
    LONG_MIN ≤ clampLong v ∧ clampLong v ≤ LONG_MAX := by
  unfold clampLong LONG_MIN LONG_MAX
  norm_num
  split_ifs <;> omega

theorem strtolModel_value_in_range (s : List Char) :
    LONG_MIN ≤ (strtolModel s).value ∧ (strtolModel s).value ≤ LONG_MAX := by
  dsimp only [strtolModel]
  rcases signSplit (List.drop (List.takeWhile isCWhitespace s).length s) with ⟨sign, slen, s2⟩
  dsimp only
  split
  · constructor <;> norm_num [LONG_MIN, LONG_MAX]
  · exact clampLong_in_range _

/-- Claim C10: the integer validator rejects a token exactly when it is
empty or has characters remaining after the longest `strtol`-parsable
prefix; consequently tokens with leading whitespace or an explicit `+`
sign (` 5`, `+5`) are accepted as well-formed with value 5, out-of-range
tokens are accepted with the value clamped to `LONG_MAX` / `LONG_MIN`
rather than rejected, and every accepted value lies in the `long`
range. -/
theorem strtol_check_contract :
    (∀ t : String,
      strtol_check t = .error () ↔
        t.data = [] ∨ (strtolModel t.data).consumed ≠ t.data.length) ∧
    strtol_check " 5" = .ok 5 ∧
    strtol_check "+5" = .ok 5 ∧
    strtol_check "99999999999999999999" = .ok LONG_MAX ∧
    strtol_check "-99999999999999999999" = .ok LONG_MIN ∧
    (∀ (t : String) (v : Int),
      strtol_check t = .ok v → LONG_MIN ≤ v ∧ v ≤ LONG_MAX) := by
  refine ⟨?_, rfl, rfl, ?_, ?_, ?_⟩
  · intro t
    constructor
    · intro h
      by_contra hc
      rw [not_or] at hc
      unfold strtol_check at h
      rw [if_neg (by tauto)] at h
      exact Except.noConfusion h
    · intro h
      unfold strtol_check
      rw [if_pos (by tauto)]
  · rfl
  · rfl
  · intro t v h
    simp only [strtol_check] at h
    split at h
    · exact Except.noConfusion h
    · injection h with hv
      rw [← hv]
      exact strtolModel_value_in_range t.data

/-- Claim C10 witness: the range bound applied at the accepted token
` 5`. -/
theorem strtol_check_contract_witness :
    LONG_MIN ≤ (5 : Int) ∧ (5 : Int) ≤ LONG_MAX :=
  strtol_check_contract.2.2.2.2.2 " 5" 5 rfl
